import Mathlib

/-!
Shallow embedding of the daily-content caching / fan-out / draw layer of the
coachastralhoroscopo repository (files `horoscopoDiario.py`,
`horoscopoDetallado.py`, `tarotdiario.py`, with outbound-call data also drawn
from `LaLunaDeHoy.py` and `articuloastro.py`), together with theorems settling
the frozen claims about that layer.

Modelling conventions:
* Python exceptions are an explicit `Except` value; the distinction that
  matters to the handlers is `RuntimeError` (raised by the repository's own
  code on upstream HTTP errors or missing credentials, and caught by the
  route handlers) versus a `requests`-level exception (connectivity/timeout,
  NOT a `RuntimeError`, hence not caught by `except RuntimeError`).
* The upstream HTTP exchange of one `requests.post` call is a data value
  (`UpResult`): either a connectivity failure or a response carrying a status
  code, a body text and an opaque parsed payload.
* The OpenAI rewrite stage of each per-sign pipeline is an opaque
  `String → Except PyExc _` parameter (its prompt content and JSON-shape
  sniffing are business content outside every claim).
* The `ThreadPoolExecutor`/`as_completed` fan-out is modelled by an explicit
  completion order: one task is submitted per element of `SIGNS_ES`, so the
  completion order is a permutation of `SIGNS_ES`; the merge loop
  (`sign, data = f.result(); signs_out[sign] = data`) processes that order
  sequentially and re-raises the first failure it meets.
* Python dict insertion is modelled by an association list built in
  completion order (completion orders coming from distinct submitted futures
  never repeat a key, so overwrite semantics are not exercised).
* Stdlib randomness (`random.Random` seeded Mersenne-Twister words,
  `secrets.SystemRandom` words) is outside the repository; each is modelled
  as a word stream (`Nat → Nat`): a fixed deterministic stream fully
  determined by the seed for the seeded case, an ambient stream parameter for
  the system-entropy case.  The rejection loops inside
  `random.sample`/`_randbelow` are given explicit fuel, so draw results are
  `Option`-valued; `none` models nontermination of the rejection loop.
-/

namespace CoachAstral

/-- Exception classes distinguished by the route handlers: `RuntimeError`
(raised by the repository's own code, carrying a message) versus a
`requests`-level exception (connectivity / timeout), which is not a
`RuntimeError` and therefore escapes `except RuntimeError` blocks. -/
inductive PyExc where
  | runtimeError (msg : String)
  | requestsError
deriving DecidableEq

/-- Outcome of one upstream `requests.post` exchange, seen as data: either a
connectivity-level failure (the call raises a `requests` exception) or an
HTTP response with status code, body text and an opaque parsed JSON payload
(the payload is opaque: no claim depends on its internal shape). -/
inductive UpResult where
  | conn
  | resp (status : Nat) (body : String) (facts : String)
deriving DecidableEq

/-- Prefix test: does the second list start the first. -/
def listStarts : List Char → List Char → Bool
  | _, [] => true
  | [], _ :: _ => false
  | c :: cs, d :: ds => c == d && listStarts cs ds

/-- Contiguous-substring occurrence test on character lists. -/
def listContains : List Char → List Char → Bool
  | [], needle => needle.isEmpty
  | c :: rest, needle => listStarts (c :: rest) needle || listContains rest needle

/-- Python substring test `needle in hay` on strings. -/
def strContains (hay needle : String) : Bool :=
  listContains hay.data needle.data

/-- Python slice `s[:n]` (by code point, as Python slices str by code
point). -/
def strTake (s : String) (n : Nat) : String :=
  String.mk (s.data.take n)

/-- SIGNS_ES of horoscopoDiario.py lines 27-30 and horoscopoDetallado.py
lines 27-30: the fixed 12-sign subject enumeration. -/
def SIGNS_ES : List String :=
  ["aries", "tauro", "géminis", "cáncer", "leo", "virgo",
   "libra", "escorpio", "sagitario", "capricornio", "acuario", "piscis"]

/-- astrology_prediction_daily of horoscopoDetallado.py lines 81-96: raises
`RuntimeError` when credentials are missing; performs the upstream POST
(modelled by the `UpResult` argument: a `requests` exception propagates as
is); raises `RuntimeError` with message
`f"AstrologyAPI error {r.status_code}: {r.text[:300]}"` when the status is
`>= 400`; otherwise returns the parsed payload. -/
def astrology_prediction_daily (creds : Bool) (u : UpResult) : Except PyExc String :=
  if creds = false then
    .error (.runtimeError "Faltan ASTRO_USER_ID o ASTRO_API_KEY en Render.")
  else
    match u with
    | .conn => .error .requestsError
    | .resp st body facts =>
        if 400 ≤ st then
          .error (.runtimeError ("AstrologyAPI error " ++ toString st ++ ": " ++ strTake body 300))
        else .ok facts

/-- astrology_consolidated_daily of horoscopoDiario.py lines 79-90: same
credential check, upstream POST and `RuntimeError` construction as
`astrology_prediction_daily` (the two near-duplicate functions differ only in
the endpoint URL, which is outside the model). -/
def astrology_consolidated_daily (creds : Bool) (u : UpResult) : Except PyExc String :=
  if creds = false then
    .error (.runtimeError "Faltan ASTRO_USER_ID o ASTRO_API_KEY en Render.")
  else
    match u with
    | .conn => .error .requestsError
    | .resp st body facts =>
        if 400 ≤ st then
          .error (.runtimeError ("AstrologyAPI error " ++ toString st ++ ": " ++ strTake body 300))
        else .ok facts

/-- astrology_daily_prediction of horoscopoDiario.py lines 245-257: again the
same credential check, POST and `RuntimeError` construction, for the
`sun_sign_prediction/daily` endpoint. -/
def astrology_daily_prediction (creds : Bool) (u : UpResult) : Except PyExc String :=
  if creds = false then
    .error (.runtimeError "Faltan ASTRO_USER_ID o ASTRO_API_KEY en Render.")
  else
    match u with
    | .conn => .error .requestsError
    | .resp st body facts =>
        if 400 ≤ st then
          .error (.runtimeError ("AstrologyAPI error " ++ toString st ++ ": " ++ strTake body 300))
        else .ok facts

/-- Per-sign item produced by build_one_sign_detailed of
horoscopoDetallado.py lines 196-207 (`sun_sign`, `prediction_date`,
`sections`; the sections dict is carried as the opaque rewrite output). -/
structure DetItem where
  sun_sign : String
  prediction_date : String
  sections : String
deriving DecidableEq

/-- Per-sign item produced by build_one_sign / build_one_sign_daily of
horoscopoDiario.py (`prediction`, `prediction_date`, `sun_sign`). -/
structure ConsItem where
  prediction : String
  prediction_date : String
  sun_sign : String
deriving DecidableEq

/-- build_one_sign_detailed of horoscopoDetallado.py lines 196-207: fetch the
sign's facts via `astrology_prediction_daily`, push them through the
extract+translate stage (`extract_sections_en` then `translate_sections_to_es`,
modelled as the opaque `rew` parameter, whose OpenAI call may raise), and
assemble the per-sign dict. -/
def build_one_sign_detailed (creds : Bool) (up : String → UpResult)
    (rew : String → Except PyExc String) (date_label : String) (s : String) :
    Except PyExc DetItem :=
  match astrology_prediction_daily creds (up s) with
  | .error e => .error e
  | .ok facts =>
      match rew facts with
      | .error e => .error e
      | .ok secs => .ok ⟨s, date_label, secs⟩

/-- build_one_sign of horoscopoDiario.py lines 159-172: fetch via
`astrology_consolidated_daily`, then `extract_prediction_sections` /
`join_sections` / `translate_es_strict` (modelled as the opaque `rew`
parameter), and assemble the per-sign dict. -/
def build_one_sign (creds : Bool) (up : String → UpResult)
    (rew : String → Except PyExc String) (date_label : String) (s : String) :
    Except PyExc ConsItem :=
  match astrology_consolidated_daily creds (up s) with
  | .error e => .error e
  | .ok facts =>
      match rew facts with
      | .error e => .error e
      | .ok text_es => .ok ⟨text_es, date_label, s⟩

/-- build_one_sign_daily of horoscopoDiario.py lines 286-300: fetch via
`astrology_daily_prediction`, then `join_daily_categories` /
`translate_es_strict` (opaque `rew`), and assemble the per-sign dict. -/
def build_one_sign_daily (creds : Bool) (up : String → UpResult)
    (rew : String → Except PyExc String) (date_label : String) (s : String) :
    Except PyExc ConsItem :=
  match astrology_daily_prediction creds (up s) with
  | .error e => .error e
  | .ok facts =>
      match rew facts with
      | .error e => .error e
      | .ok text_es => .ok ⟨text_es, date_label, s⟩

/-- Merge loop of the fan-out (`for f in as_completed(futures): sign_es, data
= f.result(); signs_out[sign_es] = data`): processes the completed tasks in
completion order, re-raising the first failure; on all-success it yields the
association list of per-sign results in completion order. -/
def fanoutLoop {α : Type} (b1 : String → Except PyExc α) :
    List String → Except PyExc (List (String × α))
  | [] => .ok []
  | s :: rest =>
      match b1 s with
      | .error e => .error e
      | .ok it =>
          match fanoutLoop b1 rest with
          | .error e => .error e
          | .ok m => .ok ((s, it) :: m)

/-- Response payload shape shared by the horoscope builders:
`{"_cached": ..., "date_key": ..., "signs": {...}}`. -/
structure HoroPayload (α : Type) where
  _cached : Bool
  date_key : String
  signs : List (String × α)
deriving DecidableEq

/-- build_detailed_today of horoscopoDetallado.py lines 210-224: submits one
`build_one_sign_detailed` task per element of SIGNS_ES, merges them in
completion order (`order`), and wraps the result. -/
def build_detailed_today (date_key date_label : String) (order : List String)
    (creds : Bool) (up : String → UpResult) (rew : String → Except PyExc String) :
    Except PyExc (HoroPayload DetItem) :=
  match fanoutLoop (build_one_sign_detailed creds up rew date_label) order with
  | .error e => .error e
  | .ok m => .ok ⟨false, date_key, m⟩

/-- build_consolidated_today of horoscopoDiario.py lines 175-189: submits one
`build_one_sign` task per element of SIGNS_ES, merges them in completion
order, and wraps the result. -/
def build_consolidated_today (date_key date_label : String) (order : List String)
    (creds : Bool) (up : String → UpResult) (rew : String → Except PyExc String) :
    Except PyExc (HoroPayload ConsItem) :=
  match fanoutLoop (build_one_sign creds up rew date_label) order with
  | .error e => .error e
  | .ok m => .ok ⟨false, date_key, m⟩

/-- build_daily_horoscope_today of horoscopoDiario.py lines 302-319: same
fan-out over SIGNS_ES with `build_one_sign_daily` tasks. -/
def build_daily_horoscope_today (date_key date_label : String) (order : List String)
    (creds : Bool) (up : String → UpResult) (rew : String → Except PyExc String) :
    Except PyExc (HoroPayload ConsItem) :=
  match fanoutLoop (build_one_sign_daily creds up rew date_label) order with
  | .error e => .error e
  | .ok m => .ok ⟨false, date_key, m⟩

/-- Marker substring the handlers look for inside the `RuntimeError` message
to recognise upstream quota exhaustion. -/
def trialMarker : String := "TRIAL_REQUEST_LIMIT_EXCEEDED"

/-- Come-back-later message of the 429 branch of api_today
(horoscopoDiario.py line 227) and api_detailed_today
(horoscopoDetallado.py line 267). -/
def trialLimitMessage : String :=
  "Hoy no se ha podido generar el horóscopo completo. Vuelve mañana ✨"

/-- Response of a route handler: a 200 JSON payload, a structured JSON error
payload with a stable error code, a bounded message and an HTTP status, or an
exception that escapes the handler's `except RuntimeError` clause and is left
to the framework (no structured payload is produced by the handler). -/
inductive Resp (α : Type) where
  | ok (p : HoroPayload α)
  | err (code msg : String) (status : Nat)
  | unhandled (e : PyExc)
deriving DecidableEq

/-- True when the handler itself produced a structured JSON response (a
success payload or an error payload with a stable code); false when an
exception escaped the handler and was left to the framework. -/
def Resp.isStructured {α : Type} : Resp α → Bool
  | .unhandled _ => false
  | _ => true

/-- Observable outcome of one horoscope handler invocation: the response, the
cache write it performed (`none` when the cache was left untouched), and the
number of outbound upstream calls (FactSource fetches plus Rewriter calls)
made while serving the request. -/
structure HoroOut (α : Type) where
  resp : Resp α
  write : Option (HoroPayload α)
  upstreamCalls : Nat

/-- api_today of horoscopoDiario.py lines 205-235.  `cacheHit` is
`CACHE.get(date_key)`; on a hit with `force` false the handler returns a copy
of the entry with `_cached` set to `True`, performs no write and makes no
upstream call.  Otherwise it evaluates the fan-out build (the `build`
argument, whose computation would make `buildCalls` outbound calls — the
model passes the would-be result and its call count, and charges the calls
only on the branch that actually runs the build): on success it stores and
returns the result; a `RuntimeError` whose message contains
`TRIAL_REQUEST_LIMIT_EXCEEDED` becomes the structured 429 payload; any other
`RuntimeError` becomes the structured 500 payload with the message truncated
to 300 characters; any non-`RuntimeError` exception escapes the handler.
Line 216 of the source has a stray 3-space indent on the
`result = build_daily_horoscope_today(...)` line (an IndentationError as
committed); the model follows the evident intent of that line as the body of
the `try` block. -/
def api_today {α : Type} (force : Bool) (cacheHit : Option (HoroPayload α))
    (build : Except PyExc (HoroPayload α)) (buildCalls : Nat) : HoroOut α :=
  match force, cacheHit with
  | false, some p => ⟨.ok { p with _cached := true }, none, 0⟩
  | _, _ =>
      match build with
      | .ok r => ⟨.ok r, some r, buildCalls⟩
      | .error (.runtimeError msg) =>
          if strContains msg trialMarker then
            ⟨.err "ASTRO_TRIAL_LIMIT" trialLimitMessage 429, none, buildCalls⟩
          else
            ⟨.err "SERVER_ERROR" (strTake msg 300) 500, none, buildCalls⟩
      | .error e => ⟨.unhandled e, none, buildCalls⟩

/-- api_detailed_today of horoscopoDetallado.py lines 243-275.  Same shape
as `api_today` over CACHE_DETAILED, except that the force flag is
`(request.args.get("force", "0").strip() == "1") or ("t" in request.args)`,
modelled by the two Booleans `forceFlag` and `hasT`. -/
def api_detailed_today {α : Type} (forceFlag hasT : Bool)
    (cacheHit : Option (HoroPayload α)) (build : Except PyExc (HoroPayload α))
    (buildCalls : Nat) : HoroOut α :=
  match forceFlag || hasT, cacheHit with
  | false, some p => ⟨.ok { p with _cached := true }, none, 0⟩
  | _, _ =>
      match build with
      | .ok r => ⟨.ok r, some r, buildCalls⟩
      | .error (.runtimeError msg) =>
          if strContains msg trialMarker then
            ⟨.err "ASTRO_TRIAL_LIMIT" trialLimitMessage 429, none, buildCalls⟩
          else
            ⟨.err "SERVER_ERROR" (strTake msg 300) 500, none, buildCalls⟩
      | .error e => ⟨.unhandled e, none, buildCalls⟩

/-- Character predicate of the cache-key sanitizer of tarotdiario.py line 60:
`c.isalnum() or c in ("-", "_")`.  Python's `str.isalnum` is Unicode-aware;
the model uses the ASCII alphanumeric test, which agrees with it on every
input exercised by the claims. -/
def pySanitizeKeep (c : Char) : Bool :=
  c.isAlphanum || c == '-' || c == '_'

/-- Sanitized device-id component of _cache_path (tarotdiario.py line 60):
`"".join(c for c in device_id if c.isalnum() or c in ("-", "_"))[:64] or
"anon"`. -/
def sanitizeDeviceId (device_id : String) : String :=
  let kept := (device_id.data.filter pySanitizeKeep).take 64
  if kept.isEmpty then "anon" else String.mk kept

/-- Cache file name built by _cache_path of tarotdiario.py lines 55-61:
`f"{name}_{day}_{safe}.json"`
(the constant `CACHE_DIR` directory prefix added by `os.path.join` is the
same for every key and is omitted: it affects no distinctness claim). -/
def cachePath (name day device_id : String) : String :=
  name ++ "_" ++ day ++ "_" ++ sanitizeDeviceId device_id ++ ".json"

/-- Binary length computed by fuel-bounded halving (structural recursion so
that concrete draws reduce inside the kernel); the fuel argument is an upper
bound on the number of halvings. -/
def bitLenGo : Nat → Nat → Nat
  | 0, _ => 0
  | fuel + 1, m => if m = 0 then 0 else bitLenGo fuel (m / 2) + 1

/-- Python `int.bit_length` (the bit count of `n`; `n` itself bounds the
number of halvings, so it serves as fuel). -/
def pyBitLength (n : Nat) : Nat :=
  bitLenGo n n

/-- Stdlib `Random._randbelow_with_getrandbits(n)`: draw `bit_length n`
random bits from the word stream (position `pos` indexes the stream) and
retry while the value is `>= n`.  The retry loop carries explicit fuel;
`none` models a run of the loop that never produces a value below `n`. -/
def randbelow (stream : Nat → Nat) (n : Nat) : Nat → Nat → Option (Nat × Nat)
  | _, 0 => none
  | pos, fuel + 1 =>
      let r := stream pos % 2 ^ pyBitLength n
      if r < n then some (r, pos + 1) else randbelow stream n (pos + 1) fuel

/-- Inner loop of the selection-set branch of stdlib `random.sample`
(chosen for `n = 78`, `k = 3` since `n > setsize = 21`):
`j = randbelow(n)` then `while j in selected: j = randbelow(n)`. -/
def pickFresh (stream : Nat → Nat) (n : Nat) (selected : List Nat) :
    Nat → Nat → Option (Nat × Nat)
  | _, 0 => none
  | pos, fuel + 1 =>
      match randbelow stream n pos (fuel + 1) with
      | none => none
      | some (j, pos') =>
          if j ∈ selected then pickFresh stream n selected pos' fuel
          else some (j, pos')

/-- Outer loop of the selection-set branch of stdlib `random.sample`:
for each of the `k` result slots pick one index not yet selected. -/
def sampleIdx (stream : Nat → Nat) (n : Nat) (fuel : Nat) :
    Nat → Nat → List Nat → Option (List Nat × Nat)
  | 0, pos, _ => some ([], pos)
  | k + 1, pos, selected =>
      match pickFresh stream n selected pos fuel with
      | none => none
      | some (j, pos') =>
          match sampleIdx stream n fuel k pos' (j :: selected) with
          | none => none
          | some (l, p') => some (j :: l, p')

/-- Stdlib `sample(range(1, 79), 3)`: sample three distinct indices below 78
and map index `j` to population element `j + 1`. -/
def pySample78x3 (stream : Nat → Nat) (fuel : Nat) : Option (List Nat) :=
  match sampleIdx stream 78 fuel 3 0 [] with
  | none => none
  | some (l, _) => some (l.map (· + 1))

/-- Models `int(hashlib.sha256(seed_raw).hexdigest(), 16)` of tarotdiario.py
lines 112-113.  SHA-256 is Python stdlib, external to the repository; it is
modelled as a fixed deterministic mixing function of the input string — the
claims rely only on it being a function of its argument. -/
def sha256IntModel (s : String) : Nat :=
  s.data.foldl (fun a c => (a * 1099511628211 + c.toNat + 1) % 2 ^ 256) 14695981039346656037

/-- Models the `getrandbits` word stream of the stdlib Mersenne Twister
`random.Random(seed_int)` of tarotdiario.py line 114: external stdlib code,
modelled as a deterministic word stream fully determined by the seed. -/
def prngStream (seed : Nat) (i : Nat) : Nat :=
  (seed + (i + 1) * 2654435761) % 2 ^ 32

/-- Three numbers returned by _draw_tarot_numbers
(`{"love": nums[0], "career": nums[1], "finance": nums[2]}`). -/
structure TarotNums where
  love : Nat
  career : Nat
  finance : Nat
deriving DecidableEq

/-- _draw_tarot_numbers of tarotdiario.py lines 100-117.  With `live` true it
samples from `secrets.SystemRandom()` (the ambient `sysStream` word stream);
with `live` false it seeds the stdlib generator with
`sha256(f"{_today_str()}|{device_id}")` read as an integer and samples from
that seeded stream — no system entropy enters the seeded branch.  `fuel`
bounds the stdlib rejection loops (a modelling artifact of embedding the
`while` loops; `none` models their nontermination). -/
def drawTarotNumbers (today device_id : String) (live : Bool)
    (sysStream : Nat → Nat) (fuel : Nat) : Option TarotNums :=
  let nums? :=
    if live then pySample78x3 sysStream fuel
    else pySample78x3 (prngStream (sha256IntModel (today ++ "|" ++ device_id))) fuel
  match nums? with
  | some [a, b, c] => some ⟨a, b, c⟩
  | _ => none

/-- Normalized Spanish tarot text returned by _translate_tarot_to_es
(tarotdiario.py lines 182-186). -/
structure TarotEs where
  amor : String
  trabajo : String
  dinero_y_fortuna : String
deriving DecidableEq

/-- Response dict built by tarot_daily (tarotdiario.py lines 216-226), field
for field in source order. -/
structure TarotResult where
  date : String
  amor : String
  trabajo : String
  dinero_y_fortuna : String
  source_fields : List String
  device_id_used : String
  numbers_used : TarotNums
  live : Bool
deriving DecidableEq

/-- Observable outcome of one tarot_daily invocation: the response (`none`
models the draw's rejection loop never terminating; otherwise the propagated
exception or the JSON payload), the cache mapping after the request, and the
number of outbound upstream calls made (AstrologyAPI fetch and OpenAI
rewrite). -/
structure TarotOut where
  resp : Option (Except PyExc TarotResult)
  cacheAfter : String → Option TarotResult
  upstreamCalls : Nat

/-- tarot_daily of tarotdiario.py lines 189-229.  The cache is the mapping
from file name to stored payload (`_read_cache`/`_write_cache`; a stored
payload dict is never empty, so Python's `if cached:` truthiness test is
`isSome`; `_write_cache` swallows storage failures — the model takes the
write to succeed).  With `live` false a populated entry for the
per-(day, device) file is returned as is with no upstream call; otherwise the
handler draws numbers (`_draw_tarot_numbers`), posts them to the upstream API
(`_astro_post "tarot_predictions"`, the opaque `astro` argument, one outbound
call), rewrites the result (`_translate_tarot_to_es`, the opaque `tr`
argument, a second outbound call), writes the response dict to the same
per-(day, device) file and returns it. -/
def tarot_daily (live : Bool) (device_id today : String)
    (cache : String → Option TarotResult) (sysStream : Nat → Nat) (fuel : Nat)
    (astro : TarotNums → Except PyExc String)
    (tr : String → Except PyExc TarotEs) : TarotOut :=
  let cache_file := cachePath "tarot_daily" today device_id
  let miss : TarotOut :=
    match drawTarotNumbers today device_id live sysStream fuel with
    | none => ⟨none, cache, 0⟩
    | some nums =>
        match astro nums with
        | .error e => ⟨some (.error e), cache, 1⟩
        | .ok tarot_en =>
            match tr tarot_en with
            | .error e => ⟨some (.error e), cache, 2⟩
            | .ok es =>
                let result : TarotResult :=
                  ⟨today, es.amor, es.trabajo, es.dinero_y_fortuna,
                   ["love", "career", "finance"], device_id, nums, live⟩
                ⟨some (.ok result),
                 fun p => if p = cache_file then some result else cache p, 2⟩
  if live then miss
  else
    match cache cache_file with
    | some cached => ⟨some (.ok cached), cache, 0⟩
    | none => miss

/-- One outbound network call site of the repository, with the explicit
timeout (in seconds) it carries, if any.  `isFact` is true for FactSource
(AstrologyAPI `requests.post`) calls and false for Rewriter (OpenAI
`chat.completions.create`) calls. -/
structure OutboundCall where
  site : String
  isFact : Bool
  timeoutSecs : Option Nat
deriving DecidableEq

/-- Every outbound call site of the repository with the timeout written at
that site in the source: horoscopoDiario.py lines 86 and 254
(`timeout=20`) and lines 138-151 (OpenAI call, no timeout argument);
horoscopoDetallado.py line 92 (`timeout=20`) and lines 167-177 (no timeout);
tarotdiario.py line 94 (`timeout=30`) and lines 153-160 (no timeout);
LaLunaDeHoy.py lines 147-148 (`timeout=20` twice) and line 255
(`timeout=45`); articuloastro.py lines 121 and 128 (`timeout=20`) and
line 274 (`timeout=45`). -/
def repoOutboundCalls : List OutboundCall :=
  [⟨"horoscopoDiario.astrology_consolidated_daily", true, some 20⟩,
   ⟨"horoscopoDiario.astrology_daily_prediction", true, some 20⟩,
   ⟨"horoscopoDiario.translate_es_strict", false, none⟩,
   ⟨"horoscopoDetallado.astrology_prediction_daily", true, some 20⟩,
   ⟨"horoscopoDetallado.translate_sections_to_es", false, none⟩,
   ⟨"tarotdiario._astro_post", true, some 30⟩,
   ⟨"tarotdiario._translate_tarot_to_es", false, none⟩,
   ⟨"LaLunaDeHoy._astro_post moon_phase_report", true, some 20⟩,
   ⟨"LaLunaDeHoy._astro_post lunar_metrics", true, some 20⟩,
   ⟨"LaLunaDeHoy openai translation", false, some 45⟩,
   ⟨"articuloastro._astro_post moon_phase", true, some 20⟩,
   ⟨"articuloastro._astro_post planets", true, some 20⟩,
   ⟨"articuloastro openai article", false, some 45⟩]

/-! Helper lemmas. -/

theorem fanoutLoop_ok_of_all_ok {α : Type} (b1 : String → Except PyExc α) :
    ∀ order : List String, (∀ s ∈ order, ∃ it, b1 s = .ok it) →
      ∃ m, fanoutLoop b1 order = .ok m ∧ m.map Prod.fst = order := by
  intro order
  induction order with
  | nil => intro _; exact ⟨[], rfl, rfl⟩
  | cons s rest ih =>
      intro h
      obtain ⟨it, hit⟩ := h s (List.mem_cons_self s rest)
      obtain ⟨m, hm, hkeys⟩ := ih fun x hx => h x (List.mem_cons_of_mem _ hx)
      refine ⟨(s, it) :: m, ?_, ?_⟩
      · simp only [fanoutLoop, hit, hm]
      · simpa [List.map_cons] using hkeys

theorem fanoutLoop_single_error {α : Type} (b1 : String → Except PyExc α) (e : PyExc)
    (s0 : String) :
    ∀ order : List String, s0 ∈ order → b1 s0 = .error e →
      (∀ s ∈ order, s ≠ s0 → ∃ it, b1 s = .ok it) →
      fanoutLoop b1 order = .error e := by
  intro order
  induction order with
  | nil => intro h; exact absurd h (List.not_mem_nil s0)
  | cons s rest ih =>
      intro hmem herr hok
      by_cases hs : s = s0
      · subst hs
        simp only [fanoutLoop, herr]
      · obtain ⟨it, hit⟩ := hok s (List.mem_cons_self s rest) hs
        have hmem' : s0 ∈ rest := by
          rcases List.mem_cons.mp hmem with h | h
          · exact absurd h.symm hs
          · exact h
        have hrest := ih hmem' herr fun x hx hxne =>
          hok x (List.mem_cons_of_mem _ hx) hxne
        simp only [fanoutLoop, hit, hrest]

theorem randbelow_lt (stream : Nat → Nat) (n : Nat) :
    ∀ fuel pos j pos', randbelow stream n pos fuel = some (j, pos') → j < n := by
  intro fuel
  induction fuel with
  | zero => intro pos j pos' h; exact absurd h (by simp [randbelow])
  | succ f ih =>
      intro pos j pos' h
      by_cases hr : stream pos % 2 ^ pyBitLength n < n
      · simp only [randbelow, if_pos hr, Option.some.injEq, Prod.mk.injEq] at h
        exact h.1 ▸ hr
      · simp only [randbelow, if_neg hr] at h
        exact ih (pos + 1) j pos' h

theorem pickFresh_spec (stream : Nat → Nat) (n : Nat) (selected : List Nat) :
    ∀ fuel pos j pos', pickFresh stream n selected pos fuel = some (j, pos') →
      j < n ∧ j ∉ selected := by
  intro fuel
  induction fuel with
  | zero => intro pos j pos' h; exact absurd h (by simp [pickFresh])
  | succ f ih =>
      intro pos j pos' h
      rcases hrb : randbelow stream n pos (f + 1) with _ | ⟨j', p'⟩
      · simp [pickFresh, hrb] at h
      · simp only [pickFresh, hrb] at h
        by_cases hj : j' ∈ selected
        · rw [if_pos hj] at h
          exact ih p' j pos' h
        · rw [if_neg hj] at h
          simp only [Option.some.injEq, Prod.mk.injEq] at h
          exact ⟨h.1 ▸ randbelow_lt stream n (f + 1) pos j' p' hrb, h.1 ▸ hj⟩

theorem sampleIdx_spec (stream : Nat → Nat) (n fuel : Nat) :
    ∀ k pos selected l p',
      sampleIdx stream n fuel k pos selected = some (l, p') →
      l.length = k ∧ (∀ j ∈ l, j < n ∧ j ∉ selected) ∧ l.Nodup := by
  intro k
  induction k with
  | zero =>
      intro pos selected l p' h
      simp only [sampleIdx, Option.some.injEq, Prod.mk.injEq] at h
      refine ⟨by simp [← h.1], by simp [← h.1], by simp [← h.1]⟩
  | succ k ih =>
      intro pos selected l p' h
      rcases hp : pickFresh stream n selected pos fuel with _ | ⟨j, pos₁⟩
      · simp [sampleIdx, hp] at h
      · rcases hs : sampleIdx stream n fuel k pos₁ (j :: selected) with _ | ⟨l₁, p₁⟩
        · simp [sampleIdx, hp, hs] at h
        · simp only [sampleIdx, hp, hs] at h
          simp only [Option.some.injEq, Prod.mk.injEq] at h
          obtain ⟨hlen, hmem, hnd⟩ := ih pos₁ (j :: selected) l₁ p₁ hs
          obtain ⟨hjn, hjsel⟩ := pickFresh_spec stream n selected fuel pos j pos₁ hp
          refine ⟨?_, ?_, ?_⟩
          · simp [← h.1, hlen]
          · intro x hx
            rw [← h.1] at hx
            rcases List.mem_cons.mp hx with rfl | hx'
            · exact ⟨hjn, hjsel⟩
            · obtain ⟨hxn, hxsel⟩ := hmem x hx'
              exact ⟨hxn, fun hc => hxsel (List.mem_cons_of_mem _ hc)⟩
          · rw [← h.1]
            refine List.nodup_cons.mpr ⟨?_, hnd⟩
            intro hc
            exact (hmem j hc).2 (List.mem_cons_self j selected)

theorem pySample78x3_spec (stream : Nat → Nat) (fuel : Nat) (l : List Nat) :
    pySample78x3 stream fuel = some l →
    l.length = 3 ∧ l.Nodup ∧ ∀ x ∈ l, 1 ≤ x ∧ x ≤ 78 := by
  intro h
  simp only [pySample78x3] at h
  rcases hs : sampleIdx stream 78 fuel 3 0 [] with _ | ⟨idx, p'⟩
  · rw [hs] at h; exact absurd h (by simp)
  · rw [hs] at h
    simp only [Option.some.injEq] at h
    obtain ⟨hlen, hmem, hnd⟩ := sampleIdx_spec stream 78 fuel 3 0 [] idx p' hs
    subst h
    refine ⟨by simp [hlen], ?_, ?_⟩
    · exact hnd.map fun a b hab => by omega
    · intro x hx
      obtain ⟨j, hj, rfl⟩ := List.mem_map.mp hx
      have := (hmem j hj).1
      omega

/-! Claim theorems. -/

/-- C4: for every calendar day and every device identifier, the deterministic
draw (`live = false`) is a pure function of `(day, device_id)` and nothing
else — in particular it does not consume system entropy, so two calls with
the same day and device id (and any ambient entropy streams) return the
identical ordered triple. -/
theorem claim_C4_deterministic_draw (today device_id : String)
    (sysStream₁ sysStream₂ : Nat → Nat) (fuel : Nat) :
    drawTarotNumbers today device_id false sysStream₁ fuel =
      drawTarotNumbers today device_id false sysStream₂ fuel := rfl

/-- C5: whenever `_draw_tarot_numbers` returns (in either the seeded
`live = false` mode or the fresh `live = true` mode), the three returned
values are pairwise distinct integers, each in the range `[1, 78]`. -/
theorem claim_C5_draw_distinct_in_range (today device_id : String) (live : Bool)
    (sysStream : Nat → Nat) (fuel : Nat) (r : TarotNums)
    (h : drawTarotNumbers today device_id live sysStream fuel = some r) :
    (r.love ≠ r.career ∧ r.love ≠ r.finance ∧ r.career ≠ r.finance) ∧
    (1 ≤ r.love ∧ r.love ≤ 78) ∧ (1 ≤ r.career ∧ r.career ≤ 78) ∧
    (1 ≤ r.finance ∧ r.finance ≤ 78) := by
  have main : ∀ (st : Nat → Nat),
      (match pySample78x3 st fuel with
        | some [a, b, c] => some (⟨a, b, c⟩ : TarotNums)
        | _ => none) = some r →
      (r.love ≠ r.career ∧ r.love ≠ r.finance ∧ r.career ≠ r.finance) ∧
      (1 ≤ r.love ∧ r.love ≤ 78) ∧ (1 ≤ r.career ∧ r.career ≤ 78) ∧
      (1 ≤ r.finance ∧ r.finance ≤ 78) := by
    intro st hm
    rcases hs : pySample78x3 st fuel with _ | l
    · rw [hs] at hm; exact absurd hm (by simp)
    · obtain ⟨hlen, hnd, hrange⟩ := pySample78x3_spec st fuel l hs
      rw [hs] at hm
      match l, hlen with
      | [a, b, c], _ =>
          simp only [Option.some.injEq] at hm
          subst hm
          have ha := hrange a (by simp)
          have hb := hrange b (by simp)
          have hc := hrange c (by simp)
          simp only [List.nodup_cons, List.mem_cons, List.not_mem_nil] at hnd
          refine ⟨⟨?_, ?_, ?_⟩, ha, hb, hc⟩
          · exact fun hab => hnd.1 (Or.inl hab)
          · exact fun hac => hnd.1 (Or.inr (Or.inl hac))
          · exact fun hbc => hnd.2.1 (Or.inl hbc)
  cases live
  · exact main (prngStream (sha256IntModel (today ++ "|" ++ device_id)))
      (by simpa [drawTarotNumbers] using h)
  · exact main sysStream (by simpa [drawTarotNumbers] using h)

/-- C5 witness: a concrete fresh draw evaluates and satisfies the claim. -/
theorem claim_C5_draw_distinct_in_range_witness :
    ((⟨1, 2, 3⟩ : TarotNums).love ≠ (⟨1, 2, 3⟩ : TarotNums).career ∧
     (⟨1, 2, 3⟩ : TarotNums).love ≠ (⟨1, 2, 3⟩ : TarotNums).finance ∧
     (⟨1, 2, 3⟩ : TarotNums).career ≠ (⟨1, 2, 3⟩ : TarotNums).finance) ∧
    (1 ≤ (⟨1, 2, 3⟩ : TarotNums).love ∧ (⟨1, 2, 3⟩ : TarotNums).love ≤ 78) ∧
    (1 ≤ (⟨1, 2, 3⟩ : TarotNums).career ∧ (⟨1, 2, 3⟩ : TarotNums).career ≤ 78) ∧
    (1 ≤ (⟨1, 2, 3⟩ : TarotNums).finance ∧ (⟨1, 2, 3⟩ : TarotNums).finance ≤ 78) :=
  claim_C5_draw_distinct_in_range "2026-10-12" "dev" true (fun i => i) 5 ⟨1, 2, 3⟩
    (by decide)

/-- C1: in every fan-out run (any completion order of the one-task-per-sign
futures) in which every per-subject fetch-and-rewrite task succeeds, both
`build_consolidated_today` and `build_detailed_today` return a mapping whose
key list is a permutation of the fixed 12-sign enumeration SIGNS_ES — no
extra keys, no missing keys, each subject appearing (hence attempted)
exactly once. -/
theorem claim_C1_fanout_completeness
    (dkC dlC dkD dlD : String) (orderC orderD : List String)
    (credsC credsD : Bool) (upC upD : String → UpResult)
    (rewC rewD : String → Except PyExc String)
    (hpC : orderC.Perm SIGNS_ES) (hpD : orderD.Perm SIGNS_ES)
    (hokC : ∀ s ∈ orderC, ∃ it, build_one_sign credsC upC rewC dlC s = .ok it)
    (hokD : ∀ s ∈ orderD, ∃ it, build_one_sign_detailed credsD upD rewD dlD s = .ok it) :
    (∃ m, build_consolidated_today dkC dlC orderC credsC upC rewC = .ok ⟨false, dkC, m⟩ ∧
       (m.map Prod.fst).Perm SIGNS_ES ∧ ∀ s ∈ SIGNS_ES, (m.map Prod.fst).count s = 1) ∧
    (∃ m, build_detailed_today dkD dlD orderD credsD upD rewD = .ok ⟨false, dkD, m⟩ ∧
       (m.map Prod.fst).Perm SIGNS_ES ∧ ∀ s ∈ SIGNS_ES, (m.map Prod.fst).count s = 1) := by
  have hsnd : SIGNS_ES.Nodup := by decide
  constructor
  · obtain ⟨m, hm, hkeys⟩ := fanoutLoop_ok_of_all_ok _ orderC hokC
    refine ⟨m, ?_, ?_, ?_⟩
    · simp only [build_consolidated_today, hm]
    · rw [hkeys]; exact hpC
    · intro s hs
      rw [hkeys]
      exact List.count_eq_one_of_mem (hpC.nodup_iff.mpr hsnd) (hpC.mem_iff.mpr hs)
  · obtain ⟨m, hm, hkeys⟩ := fanoutLoop_ok_of_all_ok _ orderD hokD
    refine ⟨m, ?_, ?_, ?_⟩
    · simp only [build_detailed_today, hm]
    · rw [hkeys]; exact hpD
    · intro s hs
      rw [hkeys]
      exact List.count_eq_one_of_mem (hpD.nodup_iff.mpr hsnd) (hpD.mem_iff.mpr hs)

/-- C1 witness: a concrete all-success run over SIGNS_ES in submission
order. -/
theorem claim_C1_fanout_completeness_witness :
    (∃ m, build_consolidated_today "2026-10-12" "12-10-2026" SIGNS_ES true
        (fun _ => .resp 200 "" "facts") (fun f => .ok f) = .ok ⟨false, "2026-10-12", m⟩ ∧
       (m.map Prod.fst).Perm SIGNS_ES ∧ ∀ s ∈ SIGNS_ES, (m.map Prod.fst).count s = 1) ∧
    (∃ m, build_detailed_today "2026-10-12" "12-10-2026" SIGNS_ES true
        (fun _ => .resp 200 "" "facts") (fun f => .ok f) = .ok ⟨false, "2026-10-12", m⟩ ∧
       (m.map Prod.fst).Perm SIGNS_ES ∧ ∀ s ∈ SIGNS_ES, (m.map Prod.fst).count s = 1) :=
  claim_C1_fanout_completeness "2026-10-12" "12-10-2026" "2026-10-12" "12-10-2026"
    SIGNS_ES SIGNS_ES true true (fun _ => .resp 200 "" "facts")
    (fun _ => .resp 200 "" "facts") (fun f => .ok f) (fun f => .ok f)
    (List.Perm.refl _) (List.Perm.refl _)
    (fun _ _ => ⟨_, rfl⟩) (fun _ _ => ⟨_, rfl⟩)

/-- C3: with a pre-populated cache entry for today's key and the force flag
off, each of the three handlers returns the cached payload (the two horoscope
handlers with `_cached` set to true on a copy), performs no cache write, and
makes zero upstream (FactSource or Rewriter) calls — the fan-out build is
never invoked. -/
theorem claim_C3_cache_hit_short_circuit
    {α β : Type} (p : HoroPayload α) (pd : HoroPayload β)
    (build : Except PyExc (HoroPayload α)) (buildCalls : Nat)
    (buildD : Except PyExc (HoroPayload β)) (buildCallsD : Nat)
    (device_id today : String) (cache : String → Option TarotResult)
    (r : TarotResult) (sysStream : Nat → Nat) (fuel : Nat)
    (astro : TarotNums → Except PyExc String) (tr : String → Except PyExc TarotEs)
    (hc : cache (cachePath "tarot_daily" today device_id) = some r) :
    api_today false (some p) build buildCalls =
      ⟨.ok { p with _cached := true }, none, 0⟩ ∧
    api_detailed_today false false (some pd) buildD buildCallsD =
      ⟨.ok { pd with _cached := true }, none, 0⟩ ∧
    tarot_daily false device_id today cache sysStream fuel astro tr =
      ⟨some (.ok r), cache, 0⟩ := by
  refine ⟨rfl, rfl, ?_⟩
  simp [tarot_daily, hc]

/-- C3 witness: a concrete cache hit for each handler. -/
theorem claim_C3_cache_hit_short_circuit_witness :
    api_today false (some (⟨false, "2026-10-12", []⟩ : HoroPayload ConsItem))
        (.error .requestsError) 99 =
      ⟨.ok ⟨true, "2026-10-12", []⟩, none, 0⟩ ∧
    api_detailed_today false false
        (some (⟨false, "2026-10-12", []⟩ : HoroPayload DetItem))
        (.error .requestsError) 99 =
      ⟨.ok ⟨true, "2026-10-12", []⟩, none, 0⟩ ∧
    tarot_daily false "dev" "2026-10-12"
        (fun q => if q = cachePath "tarot_daily" "2026-10-12" "dev" then
            some ⟨"2026-10-12", "a", "t", "d", ["love", "career", "finance"],
                  "dev", ⟨1, 2, 3⟩, true⟩
          else none)
        (fun i => i) 5 (fun _ => .error .requestsError)
        (fun _ => .error .requestsError) =
      ⟨some (.ok ⟨"2026-10-12", "a", "t", "d", ["love", "career", "finance"],
                  "dev", ⟨1, 2, 3⟩, true⟩),
       fun q => if q = cachePath "tarot_daily" "2026-10-12" "dev" then
           some ⟨"2026-10-12", "a", "t", "d", ["love", "career", "finance"],
                 "dev", ⟨1, 2, 3⟩, true⟩
         else none,
       0⟩ :=
  claim_C3_cache_hit_short_circuit ⟨false, "2026-10-12", []⟩ ⟨false, "2026-10-12", []⟩
    (.error .requestsError) 99 (.error .requestsError) 99 "dev" "2026-10-12"
    (fun q => if q = cachePath "tarot_daily" "2026-10-12" "dev" then
        some ⟨"2026-10-12", "a", "t", "d", ["love", "career", "finance"],
              "dev", ⟨1, 2, 3⟩, true⟩
      else none)
    ⟨"2026-10-12", "a", "t", "d", ["love", "career", "finance"], "dev", ⟨1, 2, 3⟩, true⟩
    (fun i => i) 5 (fun _ => .error .requestsError) (fun _ => .error .requestsError)
    (by decide)

/-- C10 (implicit): a successful `live=1` tarot request stores the fresh draw
in the per-(day, device) cache file shared with deterministic requests; a
subsequent `live=0` request for the same day and device (with any other
entropy stream, fuel, upstream and rewriter) returns that cached random
result with zero upstream calls, instead of recomputing the seed-derived
deterministic draw. -/
theorem claim_C10_live_draw_fills_shared_cache
    (device_id today : String) (c0 : String → Option TarotResult)
    (sysStream : Nat → Nat) (fuel : Nat)
    (astro : TarotNums → Except PyExc String) (tr : String → Except PyExc TarotEs)
    (sysStream' : Nat → Nat) (fuel' : Nat)
    (astro' : TarotNums → Except PyExc String) (tr' : String → Except PyExc TarotEs)
    (nums : TarotNums) (en : String) (es : TarotEs)
    (hd : drawTarotNumbers today device_id true sysStream fuel = some nums)
    (ha : astro nums = .ok en) (ht : tr en = .ok es) :
    tarot_daily true device_id today c0 sysStream fuel astro tr =
      ⟨some (.ok ⟨today, es.amor, es.trabajo, es.dinero_y_fortuna,
                  ["love", "career", "finance"], device_id, nums, true⟩),
       fun q => if q = cachePath "tarot_daily" today device_id then
           some ⟨today, es.amor, es.trabajo, es.dinero_y_fortuna,
                 ["love", "career", "finance"], device_id, nums, true⟩
         else c0 q,
       2⟩ ∧
    (tarot_daily false device_id today
        (tarot_daily true device_id today c0 sysStream fuel astro tr).cacheAfter
        sysStream' fuel' astro' tr').resp =
      some (.ok ⟨today, es.amor, es.trabajo, es.dinero_y_fortuna,
                 ["love", "career", "finance"], device_id, nums, true⟩) ∧
    (tarot_daily false device_id today
        (tarot_daily true device_id today c0 sysStream fuel astro tr).cacheAfter
        sysStream' fuel' astro' tr').upstreamCalls = 0 := by
  have h1 : tarot_daily true device_id today c0 sysStream fuel astro tr =
      ⟨some (.ok ⟨today, es.amor, es.trabajo, es.dinero_y_fortuna,
                  ["love", "career", "finance"], device_id, nums, true⟩),
       fun q => if q = cachePath "tarot_daily" today device_id then
           some ⟨today, es.amor, es.trabajo, es.dinero_y_fortuna,
                 ["love", "career", "finance"], device_id, nums, true⟩
         else c0 q,
       2⟩ := by
    simp [tarot_daily, hd, ha, ht]
  refine ⟨h1, ?_, ?_⟩
  · rw [h1]
    simp [tarot_daily]
  · rw [h1]
    simp [tarot_daily]

/-- C10 witness: a concrete live draw followed by a deterministic request. -/
theorem claim_C10_live_draw_fills_shared_cache_witness :
    tarot_daily true "dev" "2026-10-12" (fun _ => none) (fun i => i) 5
        (fun _ => .ok "en") (fun _ => .ok ⟨"a", "t", "d"⟩) =
      ⟨some (.ok ⟨"2026-10-12", "a", "t", "d", ["love", "career", "finance"],
                  "dev", ⟨1, 2, 3⟩, true⟩),
       fun q => if q = cachePath "tarot_daily" "2026-10-12" "dev" then
           some ⟨"2026-10-12", "a", "t", "d", ["love", "career", "finance"],
                 "dev", ⟨1, 2, 3⟩, true⟩
         else none,
       2⟩ ∧
    (tarot_daily false "dev" "2026-10-12"
        (tarot_daily true "dev" "2026-10-12" (fun _ => none) (fun i => i) 5
            (fun _ => .ok "en") (fun _ => .ok ⟨"a", "t", "d"⟩)).cacheAfter
        (fun i => i + 7) 9 (fun _ => .error .requestsError)
        (fun _ => .error .requestsError)).resp =
      some (.ok ⟨"2026-10-12", "a", "t", "d", ["love", "career", "finance"],
                 "dev", ⟨1, 2, 3⟩, true⟩) ∧
    (tarot_daily false "dev" "2026-10-12"
        (tarot_daily true "dev" "2026-10-12" (fun _ => none) (fun i => i) 5
            (fun _ => .ok "en") (fun _ => .ok ⟨"a", "t", "d"⟩)).cacheAfter
        (fun i => i + 7) 9 (fun _ => .error .requestsError)
        (fun _ => .error .requestsError)).upstreamCalls = 0 :=
  claim_C10_live_draw_fills_shared_cache "dev" "2026-10-12" (fun _ => none)
    (fun i => i) 5 (fun _ => .ok "en") (fun _ => .ok ⟨"a", "t", "d"⟩)
    (fun i => i + 7) 9 (fun _ => .error .requestsError) (fun _ => .error .requestsError)
    ⟨1, 2, 3⟩ "en" ⟨"a", "t", "d"⟩ (by decide) rfl rfl

/-- C6 counterexample: two distinct client identifiers (differing only in
characters the sanitizer strips) produce the same cache key for the
multi-tenant tarot kind on the same date, refuting the claimed injectivity in
the client identifier. -/
theorem claim_C6_counterexample :
    cachePath "tarot_daily" "2026-10-12" "a!" = cachePath "tarot_daily" "2026-10-12" "a?" ∧
    ("a!" : String) ≠ "a?" := by
  constructor
  · rfl
  · decide

/-- C6 amended: cache keys are injective in the date (for a fixed client and
kind) and injective in the sanitized-truncated client component — distinct
raw client identifiers are separated exactly when their sanitized forms
differ; identifiers that sanitize identically collide. -/
theorem claim_C6_amended_key_isolation (name d1 d2 d c c1 c2 : String) :
    (d1 ≠ d2 → cachePath name d1 c ≠ cachePath name d2 c) ∧
    (sanitizeDeviceId c1 ≠ sanitizeDeviceId c2 →
      cachePath name d c1 ≠ cachePath name d c2) := by
  constructor
  · intro hne heq
    apply hne
    have h := congrArg String.data heq
    simp only [cachePath, String.data_append] at h
    have h1 := List.append_cancel_right h
    have h2 := List.append_cancel_right h1
    have h3 := List.append_cancel_right h2
    exact String.ext (List.append_cancel_left h3)
  · intro hne heq
    apply hne
    have h := congrArg String.data heq
    simp only [cachePath, String.data_append] at h
    have h1 := List.append_cancel_right h
    exact String.ext (List.append_cancel_left h1)

/-- C6 witness: concrete distinct dates and concrete clients with distinct
sanitized forms yield distinct keys. -/
theorem claim_C6_amended_key_isolation_witness :
    cachePath "tarot_daily" "2026-10-12" "dev" ≠ cachePath "tarot_daily" "2026-10-13" "dev" ∧
    cachePath "tarot_daily" "2026-10-12" "devA" ≠ cachePath "tarot_daily" "2026-10-12" "devB" :=
  ⟨(claim_C6_amended_key_isolation "tarot_daily" "2026-10-12" "2026-10-13" "2026-10-12"
      "dev" "devA" "devB").1 (by decide),
   (claim_C6_amended_key_isolation "tarot_daily" "2026-10-12" "2026-10-13" "2026-10-12"
      "dev" "devA" "devB").2 (by decide)⟩

/-- C7 counterexample: the sanitizer keeps the underscore, so its output is
not confined to the alphanumeric-plus-hyphen subset the claim states. -/
theorem claim_C7_counterexample :
    sanitizeDeviceId "a_b" = "a_b" ∧
    (("a_b" : String).data.all fun ch => ch.isAlphanum || ch == '-') = false := by
  constructor
  · rfl
  · decide

/-- C7 amended: the sanitized client component consists only of alphanumeric
characters, hyphens or underscores, is truncated to at most 64 characters,
and falls back to the placeholder "anon" when nothing survives the filter. -/
theorem claim_C7_amended_sanitization (device_id : String) :
    (sanitizeDeviceId device_id).length ≤ 64 ∧
    (∀ ch ∈ (sanitizeDeviceId device_id).data, pySanitizeKeep ch = true) ∧
    (device_id.data.filter pySanitizeKeep = [] → sanitizeDeviceId device_id = "anon") := by
  have hdef : sanitizeDeviceId device_id =
      if ((device_id.data.filter pySanitizeKeep).take 64).isEmpty then "anon"
      else String.mk ((device_id.data.filter pySanitizeKeep).take 64) := rfl
  by_cases h : ((device_id.data.filter pySanitizeKeep).take 64).isEmpty
  · rw [hdef, if_pos h]
    exact ⟨by decide, by decide, fun _ => rfl⟩
  · rw [hdef, if_neg h]
    refine ⟨?_, ?_, ?_⟩
    · exact List.length_take_le 64 (device_id.data.filter pySanitizeKeep)
    · intro ch hch
      exact (List.mem_filter.mp (List.take_subset 64 _ hch)).2
    · intro hf
      exact absurd (by rw [hf]; rfl) h

/-- C7 witness: concrete sanitizations — an identifier of stripped characters
falls back to "anon", and a long identifier is truncated to 64 kept
characters. -/
theorem claim_C7_amended_sanitization_witness :
    sanitizeDeviceId "!!" = "anon" ∧ (sanitizeDeviceId "!!").length ≤ 64 :=
  ⟨(claim_C7_amended_sanitization "!!").2.2 (by decide),
   (claim_C7_amended_sanitization "!!").1⟩

/-- C9 counterexample: not every outbound call of the repository carries an
explicit timeout in the 20-45 second range — the three cited Rewriter call
sites carry none at all. -/
theorem claim_C9_counterexample :
    (repoOutboundCalls.all fun c =>
      c.timeoutSecs.elim false fun t => decide (20 ≤ t ∧ t ≤ 45)) = false := by
  decide

/-- C9 amended: every FactSource HTTP request carries an explicit timeout in
the 20-45 second range, and the Rewriter calls of LaLunaDeHoy and
articuloastro carry 45-second timeouts, but the Rewriter invocations of
horoscopoDiario (`translate_es_strict`), horoscopoDetallado
(`translate_sections_to_es`) and tarotdiario (`_translate_tarot_to_es`) are
made with no explicit timeout. -/
theorem claim_C9_amended_timeouts :
    ((repoOutboundCalls.filter fun c => c.isFact).all fun c =>
      c.timeoutSecs.elim false fun t => decide (20 ≤ t ∧ t ≤ 45)) = true ∧
    ((repoOutboundCalls.filter fun c => !c.isFact && c.timeoutSecs.isSome).all fun c =>
      decide (c.timeoutSecs = some 45)) = true ∧
    (repoOutboundCalls.filter fun c => c.timeoutSecs.isNone).map OutboundCall.site =
      ["horoscopoDiario.translate_es_strict",
       "horoscopoDetallado.translate_sections_to_es",
       "tarotdiario._translate_tarot_to_es"] := by
  refine ⟨by decide, by decide, by decide⟩

theorem listContains_append_left (a b n : List Char)
    (h : listContains b n = true) : listContains (a ++ b) n = true := by
  induction a with
  | nil => simpa using h
  | cons c cs ih =>
      simp [listContains, ih]

theorem strContains_append_left (a b needle : String)
    (h : strContains b needle = true) : strContains (a ++ b) needle = true := by
  simp only [strContains, String.data_append] at h ⊢
  exact listContains_append_left a.data b.data needle.data h

/-- C2 counterexample: with exactly one subject's fetch raising a
connectivity-level (`requests`) exception and the eleven others succeeding,
the batch handler does not report a structured error payload — the exception
escapes `except RuntimeError` and is left to the framework — refuting the
claim as stated. -/
theorem claim_C2_counterexample :
    (api_detailed_today false false none
        (build_detailed_today "2026-10-12" "12-10-2026" SIGNS_ES true
          (fun s => if s = "leo" then .conn else .resp 200 "" "facts")
          (fun f => .ok f)) 12).resp = .unhandled .requestsError ∧
    (api_detailed_today false false none
        (build_detailed_today "2026-10-12" "12-10-2026" SIGNS_ES true
          (fun s => if s = "leo" then .conn else .resp 200 "" "facts")
          (fun f => .ok f)) 12).resp.isStructured = false := by
  refine ⟨by decide, by decide⟩

/-- C2 amended: if exactly one subject's fetch (or rewrite) fails under the
all-or-nothing fan-out, the whole batch fails as a unit — no partial mapping
is ever returned as a success response and nothing is written to the cache —
and the failure surfaces as the structured error payload exactly when the
exception is a `RuntimeError` (upstream HTTP error); a raw connectivity
exception propagates out of the handler unhandled, with no structured
payload. -/
theorem claim_C2_amended_single_failure_aborts
    (dk dl : String) (order : List String) (creds : Bool)
    (up : String → UpResult) (rew : String → Except PyExc String)
    (s0 : String) (e : PyExc) (bc : Nat)
    (hmem : s0 ∈ order)
    (hfail : build_one_sign_detailed creds up rew dl s0 = .error e)
    (hok : ∀ s ∈ order, s ≠ s0 → ∃ it, build_one_sign_detailed creds up rew dl s = .ok it) :
    (∀ p, (api_detailed_today false false none
        (build_detailed_today dk dl order creds up rew) bc).resp ≠ .ok p) ∧
    (api_detailed_today false false none
        (build_detailed_today dk dl order creds up rew) bc).write = none ∧
    (api_detailed_today false false none
        (build_detailed_today dk dl order creds up rew) bc).resp =
      (match e with
       | .requestsError => .unhandled .requestsError
       | .runtimeError msg =>
           if strContains msg trialMarker then
             .err "ASTRO_TRIAL_LIMIT" trialLimitMessage 429
           else .err "SERVER_ERROR" (strTake msg 300) 500) := by
  have hbuild : build_detailed_today dk dl order creds up rew = .error e := by
    simp [build_detailed_today,
      fanoutLoop_single_error (build_one_sign_detailed creds up rew dl) e s0 order
        hmem hfail hok]
  rcases e with msg | _
  · by_cases hm : strContains msg trialMarker
    · simp [api_detailed_today, hbuild, hm]
    · simp [api_detailed_today, hbuild, hm]
  · simp [api_detailed_today, hbuild]

/-- C2 witness: a concrete one-subject connectivity failure exercises the
amended theorem. -/
theorem claim_C2_amended_single_failure_aborts_witness :
    (api_detailed_today false false none
        (build_detailed_today "2026-10-12" "12-10-2026" ["leo"] true
          (fun _ => .conn) (fun f => .ok f)) 12).write = none ∧
    (api_detailed_today false false none
        (build_detailed_today "2026-10-12" "12-10-2026" ["leo"] true
          (fun _ => .conn) (fun f => .ok f)) 12).resp = .unhandled .requestsError :=
  ⟨(claim_C2_amended_single_failure_aborts "2026-10-12" "12-10-2026" ["leo"] true
      (fun _ => .conn) (fun f => .ok f) "leo" .requestsError 12
      (by decide) rfl
      (fun s hs hne => absurd (List.mem_singleton.mp hs) hne)).2.1,
   (claim_C2_amended_single_failure_aborts "2026-10-12" "12-10-2026" ["leo"] true
      (fun _ => .conn) (fun f => .ok f) "leo" .requestsError 12
      (by decide) rfl
      (fun s hs hne => absurd (List.mem_singleton.mp hs) hne)).2.2⟩

/-- C8: when the upstream FactSource signals quota exhaustion (an HTTP error
status whose body carries the TRIAL_REQUEST_LIMIT_EXCEEDED marker within the
truncated message), both handlers surface a distinguished quota outcome —
error code ASTRO_TRIAL_LIMIT, the come-back-later message and rate-limit
status 429 — distinct by code and status from the generic failure outcome
(SERVER_ERROR, 500) and from the connectivity outcome (an unhandled
exception), so a caller can verify the classification from the error code
and status alone. -/
theorem claim_C8_quota_distinguishable
    (st : Nat) (body facts dk dl : String) (order : List String) (s0 : String)
    (up : String → UpResult) (rew : String → Except PyExc String) (bc : Nat)
    (hst : 400 ≤ st)
    (hmark : strContains (strTake body 300) trialMarker = true)
    (hup : up s0 = .resp st body facts)
    (hmem : s0 ∈ order)
    (hok : ∀ s ∈ order, s ≠ s0 → ∃ it, build_one_sign_daily true up rew dl s = .ok it)
    (hokD : ∀ s ∈ order, s ≠ s0 → ∃ it, build_one_sign_detailed true up rew dl s = .ok it) :
    (api_today false none (build_daily_horoscope_today dk dl order true up rew) bc).resp =
      .err "ASTRO_TRIAL_LIMIT" trialLimitMessage 429 ∧
    (api_detailed_today false false none
        (build_detailed_today dk dl order true up rew) bc).resp =
      .err "ASTRO_TRIAL_LIMIT" trialLimitMessage 429 ∧
    (∀ msg, strContains msg trialMarker = false →
      (api_today (α := ConsItem) false none (.error (.runtimeError msg)) bc).resp =
        .err "SERVER_ERROR" (strTake msg 300) 500) ∧
    (api_today (α := ConsItem) false none (.error .requestsError) bc).resp =
      .unhandled .requestsError ∧
    ("ASTRO_TRIAL_LIMIT" : String) ≠ "SERVER_ERROR" ∧ (429 : Nat) ≠ 500 := by
  have hmsg : strContains
      ("AstrologyAPI error " ++ toString st ++ ": " ++ strTake body 300)
      trialMarker = true :=
    strContains_append_left _ _ _ hmark
  have hb1 : build_one_sign_daily true up rew dl s0 =
      .error (.runtimeError
        ("AstrologyAPI error " ++ toString st ++ ": " ++ strTake body 300)) := by
    simp [build_one_sign_daily, astrology_daily_prediction, hup, hst]
  have hb1D : build_one_sign_detailed true up rew dl s0 =
      .error (.runtimeError
        ("AstrologyAPI error " ++ toString st ++ ": " ++ strTake body 300)) := by
    simp [build_one_sign_detailed, astrology_prediction_daily, hup, hst]
  have hbuild : build_daily_horoscope_today dk dl order true up rew =
      .error (.runtimeError
        ("AstrologyAPI error " ++ toString st ++ ": " ++ strTake body 300)) := by
    simp [build_daily_horoscope_today,
      fanoutLoop_single_error (build_one_sign_daily true up rew dl) _ s0 order
        hmem hb1 hok]
  have hbuildD : build_detailed_today dk dl order true up rew =
      .error (.runtimeError
        ("AstrologyAPI error " ++ toString st ++ ": " ++ strTake body 300)) := by
    simp [build_detailed_today,
      fanoutLoop_single_error (build_one_sign_detailed true up rew dl) _ s0 order
        hmem hb1D hokD]
  refine ⟨?_, ?_, ?_, rfl, by decide, by decide⟩
  · simp [api_today, hbuild, hmsg]
  · simp [api_detailed_today, hbuildD, hmsg]
  · intro msg hmf
    simp [api_today, hmf]

/-- C8 witness: a concrete quota-limited upstream response surfaces as the
429 ASTRO_TRIAL_LIMIT outcome on both handlers. -/
theorem claim_C8_quota_distinguishable_witness :
    (api_today false none
        (build_daily_horoscope_today "2026-10-12" "12-10-2026" ["leo"] true
          (fun _ => .resp 403 "TRIAL_REQUEST_LIMIT_EXCEEDED" "") (fun f => .ok f)) 12).resp =
      .err "ASTRO_TRIAL_LIMIT" trialLimitMessage 429 ∧
    (api_detailed_today false false none
        (build_detailed_today "2026-10-12" "12-10-2026" ["leo"] true
          (fun _ => .resp 403 "TRIAL_REQUEST_LIMIT_EXCEEDED" "") (fun f => .ok f)) 12).resp =
      .err "ASTRO_TRIAL_LIMIT" trialLimitMessage 429 :=
  ⟨(claim_C8_quota_distinguishable 403 "TRIAL_REQUEST_LIMIT_EXCEEDED" "" "2026-10-12"
      "12-10-2026" ["leo"] "leo"
      (fun _ => .resp 403 "TRIAL_REQUEST_LIMIT_EXCEEDED" "") (fun f => .ok f) 12
      (by decide) (by decide) rfl (by decide)
      (fun s hs hne => absurd (List.mem_singleton.mp hs) hne)
      (fun s hs hne => absurd (List.mem_singleton.mp hs) hne)).1,
   (claim_C8_quota_distinguishable 403 "TRIAL_REQUEST_LIMIT_EXCEEDED" "" "2026-10-12"
      "12-10-2026" ["leo"] "leo"
      (fun _ => .resp 403 "TRIAL_REQUEST_LIMIT_EXCEEDED" "") (fun f => .ok f) 12
      (by decide) (by decide) rfl (by decide)
      (fun s hs hne => absurd (List.mem_singleton.mp hs) hne)
      (fun s hs hne => absurd (List.mem_singleton.mp hs) hne)).2.1⟩

end CoachAstral
